import Mathlib

/-!
Shallow embedding of the two-stage rational resampler and the source
adapter of kalibrate-hydrasdr (src/dsp_resampler.cc, src/iio_source.cc).

Sample values (C++ `std::complex<float>`) are modelled as pairs of exact
rationals; the embedding keeps the exact control flow, buffer indexing and
accumulation order of the source.  Coefficient tables are transcribed from
the source literals: every literal in the source has exactly eight decimal
digits, so each is held as an integer mantissa scaled by 10^-8, which keeps
every table entry exact.
-/

/- Constants from dsp_resampler.h. -/

def S1_DECIMATION : Nat := 5

def S1_TAPS : Nat := 61

def S2_INTERP : Nat := 13

def S2_DECIM : Nat := 24

def S2_TAPS_TOTAL : Nat := 729

def S2_PHASES : Nat := 13

def S2_TAPS_PER_PHASE : Nat := 57

/-- Integer mantissas (value times 10^8) of the 61 Stage-1 FIR coefficients
`S1_COEFFS` of dsp_resampler.cc. -/
def S1_COEFFS_M : List Int := [
  -31204, -4545, 27904, 68462, 117369, 171261, 222291, 258239, 263792, 222986,
  122527, -44472, -274968, -553362, -850401, -1124041, -1322480, -1389213, -1269630, -918414,
  -306760, 571594, 1696486, 3020315, 4470262, 5953716, 7366408, 8602410, 9564828, 10175928,
  10385425, 10175928, 9564828, 8602410, 7366408, 5953716, 4470262, 3020315, 1696486, 571594,
  -306760, -918414, -1269630, -1389213, -1322480, -1124041, -850401, -553362, -274968, -44472,
  122527, 222986, 263792, 258239, 222291, 171261, 117369, 68462, 27904, -4545,
  -31204]

set_option maxHeartbeats 1600000 in
/-- Integer mantissas (value times 10^8) of the 729 Stage-2 prototype
coefficients `S2_COEFFS_RAW` of dsp_resampler.cc. -/
def S2_COEFFS_RAW_M : List Int := [
  6223, 8348, 10558, 12822, 15103, 17364, 19563, 21657, 23602, 25352,
  26862, 28088, 28987, 29518, 29645, 29335, 28560, 27297, 25530, 23250,
  20457, 17156, 13363, 9102, 4406, -685, -6118, -11837, -17773, -23854,
  -29997, -36117, -42123, -47919, -53408, -58492, -63073, -67054, -70345, -72856,
  -74507, -75225, -74948, -73624, -71213, -67689, -63041, -57275, -50410, -42486,
  -33556, -23693, -12986, -1541, 10521, 23065, 35940, 48986, 62030, 74893,
  87389, 99328, 110520, 120776, 129911, 137746, 144115, 148862, 151848, 152951,
  152070, 149128, 144071, 136874, 127538, 116095, 102608, 87168, 69899, 50954,
  30517, 8797, -13967, -37515, -61564, -85814, -109948, -133640, -156555, -178356,
  -198708, -217281, -233757, -247834, -259230, -267687, -272980, -274914, -273333, -268124,
  -259216, -246584, -230256, -210307, -186864, -160106, -130261, -97608, -62475, -25231,
  13710, 53898, 94851, 136058, 176987, 217094, 255821, 292613, 326921, 358207,
  385958, 409687, 428946, 443327, 452477, 456097, 453952, 445874, 431768, 411615,
  385475, 353489, 315879, 272948, 225079, 172731, 116439, 56804, -5507, -69772,
  -135221, -201043, -266396, -330420, -392241, -450990, -505810, -555867, -600365, -638554,
  -669745, -693318, -708733, -715538, -713383, -702020, -681315, -651250, -611931, -563584,
  -506559, -441331, -368495, -288760, -202948, -111983, -16881, 81255, 181253, 281883,
  381869, 479909, 574686, 664889, 749226, 826447, 895353, 954824, 1003823, 1041425,
  1066821, 1079337, 1078447, 1063781, 1035138, 992489, 935985, 865958, 782926, 687585,
  580809, 463646, 337303, 203138, 62649, -82545, -230721, -380069, -528715, -674743,
  -816217, -951208, -1077816, -1194198, -1298589, -1389331, -1464896, -1523907, -1565160, -1587648,
  -1590574, -1573368, -1535704, -1477506, -1398957, -1300505, -1182863, -1047007, -894172, -725840,
  -543732, -349788, -146152, 64853, 280748, 498923, 716673, 931224, 1139769, 1339500,
  1527647, 1701514, 1858509, 1996189, 2112285, 2204744, 2271754, 2311775, 2323569, 2306220,
  2259153, 2182153, 2075379, 1939366, 1775034, 1583683, 1366988, 1126989, 866075, 586962,
  292669, -13512, -328049, -647209, -967096, -1283700, -1592941, -1890715, -2172949, -2435652,
  -2674963, -2887205, -3068936, -3216995, -3328555, -3401158, -3432764, -3421783, -3367109, -3268145,
  -3124827, -2937639, -2707622, -2436378, -2126065, -1779388, -1399582, -990387, -556016, -101120,
  369256, 849721, 1334598, 1817979, 2293788, 2755853, 3197977, 3614006, 3997908, 4343847,
  4646260, 4899927, 5100048, 5242308, 5322946, 5338817, 5287443, 5167070, 4976706, 4716159,
  4386067, 3987915, 3524046, 2997665, 2412829, 1774434, 1088181, 360548, -401259, -1189360,
  -1995265, -2809939, -3623888, -4427239, -5209830, -5961309, -6671236, -7329178, -7924826, -8448092,
  -8889222, -9238899, -9488349, -9629439, -9654773, -9557785, -9332819, -8975211, -8481352, -7848750,
  -7076078, -6163212, -5111262, -3922583, -2600783, -1150713, 421551, 2108744, 3902451, 5793165,
  7770356, 9822543, 11937385, 14101777, 16301956, 18523608, 20751995, 22972070, 25168610, 27326347,
  29430098, 31464897, 33416129, 35269658, 37011953, 38630207, 40112455, 41447680, 42625912, 43638319,
  44477288, 45136492, 45610949, 45897070, 45992685, 45897070, 45610949, 45136492, 44477288, 43638319,
  42625912, 41447680, 40112455, 38630207, 37011953, 35269658, 33416129, 31464897, 29430098, 27326347,
  25168610, 22972070, 20751995, 18523608, 16301956, 14101777, 11937385, 9822543, 7770356, 5793165,
  3902451, 2108744, 421551, -1150713, -2600783, -3922583, -5111262, -6163212, -7076078, -7848750,
  -8481352, -8975211, -9332819, -9557785, -9654773, -9629439, -9488349, -9238899, -8889222, -8448092,
  -7924826, -7329178, -6671236, -5961309, -5209830, -4427239, -3623888, -2809939, -1995265, -1189360,
  -401259, 360548, 1088181, 1774434, 2412829, 2997665, 3524046, 3987915, 4386067, 4716159,
  4976706, 5167070, 5287443, 5338817, 5322946, 5242308, 5100048, 4899927, 4646260, 4343847,
  3997908, 3614006, 3197977, 2755853, 2293788, 1817979, 1334598, 849721, 369256, -101120,
  -556016, -990387, -1399582, -1779388, -2126065, -2436378, -2707622, -2937639, -3124827, -3268145,
  -3367109, -3421783, -3432764, -3401158, -3328555, -3216995, -3068936, -2887205, -2674963, -2435652,
  -2172949, -1890715, -1592941, -1283700, -967096, -647209, -328049, -13512, 292669, 586962,
  866075, 1126989, 1366988, 1583683, 1775034, 1939366, 2075379, 2182153, 2259153, 2306220,
  2323569, 2311775, 2271754, 2204744, 2112285, 1996189, 1858509, 1701514, 1527647, 1339500,
  1139769, 931224, 716673, 498923, 280748, 64853, -146152, -349788, -543732, -725840,
  -894172, -1047007, -1182863, -1300505, -1398957, -1477506, -1535704, -1573368, -1590574, -1587648,
  -1565160, -1523907, -1464896, -1389331, -1298589, -1194198, -1077816, -951208, -816217, -674743,
  -528715, -380069, -230721, -82545, 62649, 203138, 337303, 463646, 580809, 687585,
  782926, 865958, 935985, 992489, 1035138, 1063781, 1078447, 1079337, 1066821, 1041425,
  1003823, 954824, 895353, 826447, 749226, 664889, 574686, 479909, 381869, 281883,
  181253, 81255, -16881, -111983, -202948, -288760, -368495, -441331, -506559, -563584,
  -611931, -651250, -681315, -702020, -713383, -715538, -708733, -693318, -669745, -638554,
  -600365, -555867, -505810, -450990, -392241, -330420, -266396, -201043, -135221, -69772,
  -5507, 56804, 116439, 172731, 225079, 272948, 315879, 353489, 385475, 411615,
  431768, 445874, 453952, 456097, 452477, 443327, 428946, 409687, 385958, 358207,
  326921, 292613, 255821, 217094, 176987, 136058, 94851, 53898, 13710, -25231,
  -62475, -97608, -130261, -160106, -186864, -210307, -230256, -246584, -259216, -268124,
  -273333, -274914, -272980, -267687, -259230, -247834, -233757, -217281, -198708, -178356,
  -156555, -133640, -109948, -85814, -61564, -37515, -13967, 8797, 30517, 50954,
  69899, 87168, 102608, 116095, 127538, 136874, 144071, 149128, 152070, 152951,
  151848, 148862, 144115, 137746, 129911, 120776, 110520, 99328, 87389, 74893,
  62030, 48986, 35940, 23065, 10521, -1541, -12986, -23693, -33556, -42486,
  -50410, -57275, -63041, -67689, -71213, -73624, -74948, -75225, -74507, -72856,
  -70345, -67054, -63073, -58492, -53408, -47919, -42123, -36117, -29997, -23854,
  -17773, -11837, -6118, -685, 4406, 9102, 13363, 17156, 20457, 23250,
  25530, 27297, 28560, 29335, 29645, 29518, 28987, 28088, 26862, 25352,
  23602, 21657, 19563, 17364, 15103, 12822, 10558, 8348, 6223]

/-- The Stage-1 coefficient table `S1_COEFFS` as exact rationals. -/
def S1_COEFFS : List Rat := S1_COEFFS_M.map (fun n : Int => (n : Rat) / 100000000)

/-- The Stage-2 prototype coefficient table `S2_COEFFS_RAW` as exact rationals. -/
def S2_COEFFS_RAW : List Rat := S2_COEFFS_RAW_M.map (fun n : Int => (n : Rat) / 100000000)

/-- A complex sample: the embedding of `std::complex<float>` with exact
rational components. -/
structure ComplexF where
  re : Rat
  im : Rat
deriving DecidableEq

/-- The zero sample `std::complex<float>(0, 0)`. -/
def czero : ComplexF := ⟨0, 0⟩

/-- Pointwise array store `a[i] = v`, modelling a C array as a function. -/
def updf (h : Nat → ComplexF) (i : Nat) (v : ComplexF) : Nat → ComplexF :=
  fun j => if j = i then v else h j

/-- The accumulation loop shared by both stages: real/imaginary dot product
of `taps` history entries starting at `start` with the tap table `coeffs`
(dsp_resampler.cc lines 279-282 and 329-332). -/
def fir_dot (hist : Nat → ComplexF) (start : Nat) (coeffs : Nat → Rat) (taps : Nat) : ComplexF :=
  (List.range taps).foldl
    (fun acc k => ⟨acc.re + (hist (start + k)).re * coeffs k,
                   acc.im + (hist (start + k)).im * coeffs k⟩)
    ⟨0, 0⟩

/-- `s1_coeffs_rev`, filled by the constructor loop
`for i: s1_coeffs_rev[i] = S1_COEFFS[S1_TAPS - 1 - i]`
(dsp_resampler.cc lines 170-172); entries outside the array are 0. -/
def s1_coeffs_rev : Nat → Rat :=
  (List.range S1_TAPS).foldl
    (fun acc i => fun j => if j = i then S1_COEFFS.getD (S1_TAPS - 1 - i) 0 else acc j)
    (fun _ => 0)

/-- `s2_coeffs_poly[phase]`, filled by the constructor loop of
dsp_resampler.cc lines 179-189: slot `S2_TAPS_PER_PHASE - 1 - tap` receives
`S2_COEFFS_RAW[phase + tap * S2_PHASES]` when that raw index is in range and
`0.0` otherwise. -/
def s2_coeffs_poly (phase : Nat) : Nat → Rat :=
  (List.range S2_TAPS_PER_PHASE).foldl
    (fun acc tap =>
      let raw_idx := phase + tap * S2_PHASES
      fun j => if j = S2_TAPS_PER_PHASE - 1 - tap then
                 (if raw_idx < S2_TAPS_TOTAL then S2_COEFFS_RAW.getD raw_idx 0 else 0)
               else acc j)
    (fun _ => 0)

/-- The mutable state of `class dsp_resampler` (dsp_resampler.h): the two
history buffers are modelled as index functions. -/
structure dsp_resampler where
  s1_index : Nat
  s1_head : Nat
  s1_history : Nat → ComplexF
  s2_head : Nat
  s2_phase_state : Int
  s2_history : Nat → ComplexF

/-- `dsp_resampler::reset()` (dsp_resampler.cc lines 203-212). -/
def reset_state : dsp_resampler :=
  { s1_index := 0, s1_head := 0, s1_history := fun _ => czero,
    s2_head := 0, s2_phase_state := 0, s2_history := fun _ => czero }

/-- The Stage-2 emission loop `while (s2_phase_state < S2_INTERP) ...`
of `dsp_resampler::push_stage2` (dsp_resampler.cc lines 313-341), including
the capacity early-return (which skips the final subtraction) and the
final `s2_phase_state -= S2_INTERP`.  Returns the final phase together
with the output list (appending models `out_buffer[out_produced++] = ...`). -/
def stage2_emit_loop (phase : Int) (hist : Nat → ComplexF) (head : Nat)
    (out : List ComplexF) (out_cap : Nat) : Int × List ComplexF :=
  if phase < (S2_INTERP : Int) then
    if out.length ≥ out_cap then (phase, out)
    else
      let y := fir_dot hist head (s2_coeffs_poly phase.toNat) S2_TAPS_PER_PHASE
      stage2_emit_loop (phase + (S2_DECIM : Int)) hist head (out ++ [y]) out_cap
  else (phase - (S2_INTERP : Int), out)
termination_by ((S2_INTERP : Int) - phase).toNat
decreasing_by
  simp only [S2_INTERP, S2_DECIM] at *
  omega

/-- `dsp_resampler::push_stage2` (dsp_resampler.cc lines 296-342):
double-store the sample, advance `s2_head` modulo `S2_TAPS_PER_PHASE`,
then run the polyphase emission loop. -/
def push_stage2 (s : dsp_resampler) (sample : ComplexF)
    (out : List ComplexF) (out_cap : Nat) : dsp_resampler × List ComplexF :=
  let hist := updf (updf s.s2_history s.s2_head sample) (s.s2_head + S2_TAPS_PER_PHASE) sample
  let head := if s.s2_head + 1 ≥ S2_TAPS_PER_PHASE then 0 else s.s2_head + 1
  let r := stage2_emit_loop s.s2_phase_state hist head out out_cap
  ({ s with s2_history := hist, s2_head := head, s2_phase_state := r.1 }, r.2)

/-- `dsp_resampler::push_stage1` (dsp_resampler.cc lines 245-288):
double-store the sample, advance `s1_head` modulo `S1_TAPS`, increment the
decimation counter; on every `S1_DECIMATION`-th sample reset the counter,
convolve and feed the result into Stage 2. -/
def push_stage1 (s : dsp_resampler) (sample : ComplexF)
    (out : List ComplexF) (out_cap : Nat) : dsp_resampler × List ComplexF :=
  let hist := updf (updf s.s1_history s.s1_head sample) (s.s1_head + S1_TAPS) sample
  let head := if s.s1_head + 1 ≥ S1_TAPS then 0 else s.s1_head + 1
  let idx := s.s1_index + 1
  if idx ≥ S1_DECIMATION then
    let y := fir_dot hist head s1_coeffs_rev S1_TAPS
    push_stage2 { s with s1_history := hist, s1_head := head, s1_index := 0 } y out out_cap
  else
    ({ s with s1_history := hist, s1_head := head, s1_index := idx }, out)

/-- The input loop of `dsp_resampler::process` (dsp_resampler.cc lines
225-234), carrying the output accumulated so far; processing stops as soon
as `out_produced >= out_cap` after a push. -/
def process_loop (s : dsp_resampler) (ins : List ComplexF)
    (out : List ComplexF) (out_cap : Nat) : dsp_resampler × List ComplexF :=
  match ins with
  | [] => (s, out)
  | x :: rest =>
    let r := push_stage1 s x out out_cap
    if r.2.length ≥ out_cap then r
    else process_loop r.1 rest r.2 out_cap

/-- `dsp_resampler::process` (dsp_resampler.cc lines 220-237); the returned
list stands for the `out_buffer` prefix actually written, so the source's
return value `out_produced` is its length. -/
def process (s : dsp_resampler) (ins : List ComplexF) (out_cap : Nat) :
    dsp_resampler × List ComplexF :=
  process_loop s ins [] out_cap

/- Basic facts about the embedding primitives. -/

lemma updf_zero (i : Nat) : updf (fun _ => czero) i czero = (fun _ => czero) := by
  funext j
  simp [updf]

lemma fir_dot_eq_sum (hist : Nat → ComplexF) (start : Nat) (coeffs : Nat → Rat) (taps : Nat) :
    fir_dot hist start coeffs taps =
      ⟨∑ k ∈ Finset.range taps, (hist (start + k)).re * coeffs k,
       ∑ k ∈ Finset.range taps, (hist (start + k)).im * coeffs k⟩ := by
  induction taps with
  | zero => simp [fir_dot]
  | succ n ih =>
    simp only [fir_dot, List.range_succ, List.foldl_append, List.foldl_cons, List.foldl_nil] at *
    rw [ih]
    simp [Finset.sum_range_succ]

lemma fir_dot_zero (start : Nat) (coeffs : Nat → Rat) (taps : Nat) :
    fir_dot (fun _ => czero) start coeffs taps = czero := by
  rw [fir_dot_eq_sum]
  simp [czero]

lemma stage2_emit_loop_phase (p : Int) (hist : Nat → ComplexF) (head : Nat)
    (out : List ComplexF) (cap : Nat) (h0 : 0 ≤ p) (h24 : p < (S2_DECIM : Int)) :
    0 ≤ (stage2_emit_loop p hist head out cap).1 ∧
      (stage2_emit_loop p hist head out cap).1 < (S2_DECIM : Int) := by
  simp only [S2_DECIM] at *
  rw [stage2_emit_loop]
  simp only [S2_INTERP, S2_DECIM]
  split_ifs with h13 hcap
  · exact ⟨h0, by omega⟩
  · rw [stage2_emit_loop]
    simp only [S2_INTERP, S2_DECIM]
    rw [if_neg (by omega)]
    exact ⟨by omega, by omega⟩
  · exact ⟨by omega, by omega⟩

lemma stage2_emit_loop_len (m : Nat) :
    ∀ (p : Int) (hist : Nat → ComplexF) (head : Nat) (out : List ComplexF) (cap : Nat),
      ((S2_INTERP : Int) - p).toNat = m → out.length ≤ cap →
      (stage2_emit_loop p hist head out cap).2.length ≤ cap := by
  induction m using Nat.strong_induction_on with
  | _ m ih =>
    intro p hist head out cap hm hlen
    rw [stage2_emit_loop]
    split_ifs with h13 hcap
    · exact hlen
    · refine ih (((S2_INTERP : Int) - (p + (S2_DECIM : Int))).toNat) ?_ _ hist head _ cap rfl ?_
      · simp only [S2_INTERP, S2_DECIM] at *
        omega
      · simp only [List.length_append, List.length_cons, List.length_nil]
        omega
    · exact hlen

lemma push_stage2_len (s : dsp_resampler) (x : ComplexF) (out : List ComplexF) (cap : Nat)
    (hlen : out.length ≤ cap) : (push_stage2 s x out cap).2.length ≤ cap := by
  simp only [push_stage2]
  exact stage2_emit_loop_len _ _ _ _ _ _ rfl hlen

lemma push_stage1_len (s : dsp_resampler) (x : ComplexF) (out : List ComplexF) (cap : Nat)
    (hlen : out.length ≤ cap) : (push_stage1 s x out cap).2.length ≤ cap := by
  simp only [push_stage1]
  split_ifs <;>
    first
      | exact push_stage2_len _ _ _ _ hlen
      | exact hlen

lemma process_loop_len (ins : List ComplexF) :
    ∀ (s : dsp_resampler) (out : List ComplexF) (cap : Nat), out.length ≤ cap →
      (process_loop s ins out cap).2.length ≤ cap := by
  induction ins with
  | nil => intro s out cap h; exact h
  | cons x rest ih =>
    intro s out cap h
    simp only [process_loop]
    split_ifs with hbrk
    · exact push_stage1_len _ _ _ _ h
    · exact ih _ _ _ (push_stage1_len _ _ _ _ h)

/- Characterization of the pre-computed coefficient tables. -/

lemma s1_rev_foldl (m j : Nat) :
    ((List.range m).foldl
      (fun acc i => fun j => if j = i then S1_COEFFS.getD (S1_TAPS - 1 - i) 0 else acc j)
      (fun _ => 0)) j
      = if j < m then S1_COEFFS.getD (S1_TAPS - 1 - j) 0 else 0 := by
  induction m with
  | zero => simp
  | succ n ih =>
    simp only [List.range_succ, List.foldl_append, List.foldl_cons, List.foldl_nil]
    by_cases hj : j = n
    · subst hj
      simp
    · rw [if_neg hj, ih]
      by_cases hlt : j < n
      · rw [if_pos hlt, if_pos (by omega)]
      · rw [if_neg hlt, if_neg (by omega)]

lemma s1_coeffs_rev_spec (i : Nat) (hi : i < S1_TAPS) :
    s1_coeffs_rev i = S1_COEFFS.getD (S1_TAPS - 1 - i) 0 := by
  rw [s1_coeffs_rev, s1_rev_foldl, if_pos hi]

lemma s2_poly_foldl (p : Nat) :
    ∀ (m t : Nat), t < m → m ≤ S2_TAPS_PER_PHASE →
    ((List.range m).foldl
      (fun acc tap =>
        let raw_idx := p + tap * S2_PHASES
        fun j => if j = S2_TAPS_PER_PHASE - 1 - tap then
                   (if raw_idx < S2_TAPS_TOTAL then S2_COEFFS_RAW.getD raw_idx 0 else 0)
                 else acc j)
      (fun _ => 0)) (S2_TAPS_PER_PHASE - 1 - t)
      = if p + t * S2_PHASES < S2_TAPS_TOTAL then S2_COEFFS_RAW.getD (p + t * S2_PHASES) 0 else 0 := by
  intro m
  induction m with
  | zero => intro t ht _; omega
  | succ n ih =>
    intro t ht hm
    simp only [List.range_succ, List.foldl_append, List.foldl_cons, List.foldl_nil]
    by_cases htn : t = n
    · subst htn
      simp
    · have hne : S2_TAPS_PER_PHASE - 1 - t ≠ S2_TAPS_PER_PHASE - 1 - n := by
        simp only [S2_TAPS_PER_PHASE] at *
        omega
      rw [if_neg hne]
      exact ih t (by omega) (by omega)

lemma s2_coeffs_poly_spec (p t : Nat) (ht : t < S2_TAPS_PER_PHASE) :
    s2_coeffs_poly p (S2_TAPS_PER_PHASE - 1 - t)
      = if p + t * S2_PHASES < S2_TAPS_TOTAL then S2_COEFFS_RAW.getD (p + t * S2_PHASES) 0 else 0 := by
  rw [s2_coeffs_poly]
  exact s2_poly_foldl p S2_TAPS_PER_PHASE t ht (le_refl _)

/- State invariant: index bounds, phase bounds and the double-storage
property of the two history buffers. -/

/-- The double-storage invariant of the two history buffers: each of the
last `S1_TAPS` (resp. `S2_TAPS_PER_PHASE`) samples is stored twice,
`S1_TAPS` (resp. `S2_TAPS_PER_PHASE`) slots apart. -/
def DoublyStored (s : dsp_resampler) : Prop :=
  (∀ k, k < S1_TAPS → s.s1_history k = s.s1_history (k + S1_TAPS)) ∧
  (∀ k, k < S2_TAPS_PER_PHASE → s.s2_history k = s.s2_history (k + S2_TAPS_PER_PHASE))

/-- Full state invariant of the resampler between consumed input samples. -/
def StateInv (s : dsp_resampler) : Prop :=
  s.s1_index < S1_DECIMATION ∧ s.s1_head < S1_TAPS ∧ s.s2_head < S2_TAPS_PER_PHASE ∧
  0 ≤ s.s2_phase_state ∧ s.s2_phase_state < (S2_DECIM : Int) ∧ DoublyStored s

lemma updf_double {h : Nat → ComplexF} {T i : Nat} {v : ComplexF} (hi : i < T)
    (hinv : ∀ k, k < T → h k = h (k + T)) :
    ∀ k, k < T → updf (updf h i v) (i + T) v k = updf (updf h i v) (i + T) v (k + T) := by
  intro k hk
  simp only [updf]
  by_cases hki : k = i
  · subst hki
    have h1 : ¬(k = k + T) := by omega
    simp [h1]
  · have h1 : ¬(k = i + T) := by omega
    have h2 : ¬(k + T = i + T) := by omega
    have h3 : ¬(k + T = i) := by omega
    simp only [if_neg h1, if_neg hki, if_neg h2, if_neg h3]
    exact hinv k hk

lemma push_stage2_inv (s : dsp_resampler) (x : ComplexF) (out : List ComplexF) (cap : Nat)
    (h : StateInv s) : StateInv (push_stage2 s x out cap).1 := by
  obtain ⟨h1, h2, h3, h4, h5, hd1, hd2⟩ := h
  have hphase := stage2_emit_loop_phase s.s2_phase_state
    (updf (updf s.s2_history s.s2_head x) (s.s2_head + S2_TAPS_PER_PHASE) x)
    (if s.s2_head + 1 ≥ S2_TAPS_PER_PHASE then 0 else s.s2_head + 1) out cap h4 h5
  refine ⟨h1, h2, ?_, hphase.1, hphase.2, hd1, ?_⟩
  · simp only [push_stage2]
    split_ifs
    · simp only [S2_TAPS_PER_PHASE]
      omega
    · simp only [S2_TAPS_PER_PHASE] at *
      omega
  · exact updf_double h3 hd2

lemma push_stage1_inv (s : dsp_resampler) (x : ComplexF) (out : List ComplexF) (cap : Nat)
    (h : StateInv s) : StateInv (push_stage1 s x out cap).1 := by
  obtain ⟨h1, h2, h3, h4, h5, hd1, hd2⟩ := h
  have hdd := updf_double (v := x) h2 hd1
  simp only [push_stage1]
  by_cases he : s.s1_index + 1 ≥ S1_DECIMATION
  · rw [if_pos he]
    refine push_stage2_inv _ _ _ _ ⟨?_, ?_, h3, h4, h5, hdd, hd2⟩
    · dsimp only
      simp only [S1_DECIMATION]
      omega
    · dsimp only
      split_ifs with hb
      · simp only [S1_TAPS]
        omega
      · simp only [S1_TAPS] at *
        omega
  · rw [if_neg he]
    refine ⟨?_, ?_, h3, h4, h5, hdd, hd2⟩
    · dsimp only
      simp only [S1_DECIMATION] at *
      omega
    · dsimp only
      split_ifs with hb
      · simp only [S1_TAPS]
        omega
      · simp only [S1_TAPS] at *
        omega

lemma process_loop_inv (ins : List ComplexF) :
    ∀ (s : dsp_resampler) (out : List ComplexF) (cap : Nat), StateInv s →
      StateInv (process_loop s ins out cap).1 := by
  induction ins with
  | nil => intro s out cap h; exact h
  | cons x rest ih =>
    intro s out cap h
    simp only [process_loop]
    split_ifs with hbrk
    · exact push_stage1_inv _ _ _ _ h
    · exact ih _ _ _ (push_stage1_inv _ _ _ _ h)

/- Zero-input run: exact output count bookkeeping. -/

/-- Stage-2 phase accumulator after `m` Stage-2 pushes, starting from reset,
when the capacity check never triggers. -/
def phaseAfter : Nat → Int
  | 0 => 0
  | m + 1 =>
    (if phaseAfter m < (S2_INTERP : Int) then phaseAfter m + (S2_DECIM : Int) else phaseAfter m)
      - (S2_INTERP : Int)

/-- Number of output samples emitted after `m` Stage-2 pushes, starting from
reset, when the capacity check never triggers. -/
def cntAfter : Nat → Nat
  | 0 => 0
  | m + 1 => cntAfter m + (if phaseAfter m < (S2_INTERP : Int) then 1 else 0)

lemma phaseAfter_bounds (m : Nat) : 0 ≤ phaseAfter m ∧ phaseAfter m < (S2_DECIM : Int) := by
  induction m with
  | zero => simp [phaseAfter, S2_DECIM]
  | succ n ih =>
    simp only [phaseAfter, S2_INTERP, S2_DECIM] at *
    split_ifs with h <;> omega

lemma cntAfter_succ (m : Nat) :
    cntAfter (m + 1) = cntAfter m + (if phaseAfter m < (S2_INTERP : Int) then 1 else 0) := rfl

lemma cntAfter_le_succ (m : Nat) : cntAfter m ≤ cntAfter (m + 1) := by
  rw [cntAfter_succ]
  split_ifs <;> omega

lemma cntAfter_mono {a b : Nat} (h : a ≤ b) : cntAfter a ≤ cntAfter b := by
  induction b with
  | zero => simp_all
  | succ n ih =>
    rcases Nat.eq_or_lt_of_le h with he | hl
    · rw [he]
    · exact le_trans (ih (by omega)) (cntAfter_le_succ n)

lemma cntAfter_closed (m : Nat) :
    cntAfter m = (13 * m + 23) / 24 ∧ phaseAfter m = 24 * (cntAfter m : Int) - 13 * m := by
  induction m with
  | zero => simp [cntAfter, phaseAfter]
  | succ n ih =>
    obtain ⟨hc, hp⟩ := ih
    have hb := phaseAfter_bounds n
    rw [cntAfter_succ]
    simp only [phaseAfter, S2_INTERP, S2_DECIM] at *
    rw [hp, hc] at *
    constructor
    · split_ifs with h <;> omega
    · split_ifs with h <;> push_cast <;> omega

/-- The resampler state after consuming `n` zero samples from reset (with
sufficient output capacity). -/
def zeroState (n : Nat) : dsp_resampler :=
  { s1_index := n % 5, s1_head := n % 61, s1_history := fun _ => czero,
    s2_head := (n / 5) % 57, s2_phase_state := phaseAfter (n / 5),
    s2_history := fun _ => czero }

lemma push_stage1_zeroState (n : Nat) (out : List ComplexF) (cap : Nat)
    (hout : out.length < cap) :
    push_stage1 (zeroState n) czero out cap
      = (zeroState (n + 1),
         out ++ List.replicate (cntAfter ((n + 1) / 5) - cntAfter (n / 5)) czero) := by
  simp only [push_stage1, zeroState, updf_zero]
  by_cases he : n % 5 + 1 ≥ S1_DECIMATION
  · have h45 : n % 5 = 4 := by
      simp only [S1_DECIMATION] at he
      omega
    have e1 : (n + 1) % 5 = 0 := by omega
    have e2 : (n + 1) / 5 = n / 5 + 1 := by omega
    have e3 : (if n % 61 + 1 ≥ S1_TAPS then 0 else n % 61 + 1) = (n + 1) % 61 := by
      simp only [S1_TAPS]
      split_ifs <;> omega
    have e4 : (if n / 5 % 57 + 1 ≥ S2_TAPS_PER_PHASE then 0 else n / 5 % 57 + 1)
        = (n + 1) / 5 % 57 := by
      simp only [S2_TAPS_PER_PHASE]
      rw [e2]
      split_ifs <;> omega
    rw [if_pos he, e3]
    simp only [push_stage2]
    rw [fir_dot_zero]
    simp only [updf_zero]
    rw [e4]
    have hb := phaseAfter_bounds (n / 5)
    by_cases hp : phaseAfter (n / 5) < (S2_INTERP : Int)
    · have hc1 : ¬(out.length ≥ cap) := by omega
      have hc2 : ¬(phaseAfter (n / 5) + (S2_DECIM : Int) < (S2_INTERP : Int)) := by
        simp only [S2_INTERP, S2_DECIM] at *
        omega
      rw [stage2_emit_loop, if_pos hp, if_neg hc1, fir_dot_zero, stage2_emit_loop, if_neg hc2]
      have e5 : phaseAfter (n / 5) + (S2_DECIM : Int) - (S2_INTERP : Int)
          = phaseAfter ((n + 1) / 5) := by
        rw [e2]
        simp only [phaseAfter]
        rw [if_pos hp]
      have e6 : cntAfter ((n + 1) / 5) - cntAfter (n / 5) = 1 := by
        rw [e2, cntAfter_succ, if_pos hp]
        omega
      simp only [Prod.mk.injEq, dsp_resampler.mk.injEq, e1, e5, e6]
      simp
    · have e5 : phaseAfter (n / 5) - (S2_INTERP : Int) = phaseAfter ((n + 1) / 5) := by
        rw [e2]
        simp only [phaseAfter]
        rw [if_neg hp]
      have e6 : cntAfter ((n + 1) / 5) - cntAfter (n / 5) = 0 := by
        rw [e2, cntAfter_succ, if_neg hp]
        omega
      rw [stage2_emit_loop, if_neg hp]
      simp only [Prod.mk.injEq, dsp_resampler.mk.injEq, e1, e5, e6]
      simp
  · have h45 : n % 5 ≤ 3 := by
      simp only [S1_DECIMATION] at he
      omega
    have e1 : (n + 1) % 5 = n % 5 + 1 := by omega
    have e2 : (n + 1) / 5 = n / 5 := by omega
    have e3 : (if n % 61 + 1 ≥ S1_TAPS then 0 else n % 61 + 1) = (n + 1) % 61 := by
      simp only [S1_TAPS]
      split_ifs <;> omega
    rw [if_neg he, e3, e2]
    simp only [Prod.mk.injEq, dsp_resampler.mk.injEq, e1]
    simp

lemma process_loop_zeroState (k : Nat) :
    ∀ (n : Nat) (out : List ComplexF) (cap : Nat),
      out.length = cntAfter (n / 5) → cntAfter ((n + k) / 5) < cap →
      process_loop (zeroState n) (List.replicate k czero) out cap
        = (zeroState (n + k),
           out ++ List.replicate (cntAfter ((n + k) / 5) - cntAfter (n / 5)) czero) := by
  induction k with
  | zero =>
    intro n out cap hlen hcap
    simp [process_loop]
  | succ k ih =>
    intro n out cap hlen hcap
    have hstep : n + (k + 1) = (n + 1) + k := by omega
    rw [hstep] at hcap ⊢
    have hmono1 : cntAfter (n / 5) ≤ cntAfter ((n + 1) / 5) :=
      cntAfter_mono (Nat.div_le_div_right (by omega))
    have hmono2 : cntAfter ((n + 1) / 5) ≤ cntAfter (((n + 1) + k) / 5) :=
      cntAfter_mono (Nat.div_le_div_right (by omega))
    have hout : out.length < cap := by omega
    rw [List.replicate_succ]
    simp only [process_loop]
    rw [push_stage1_zeroState n out cap hout]
    have hlen1 : (out ++ List.replicate (cntAfter ((n + 1) / 5) - cntAfter (n / 5)) czero).length
        = cntAfter ((n + 1) / 5) := by
      simp only [List.length_append, List.length_replicate, hlen]
      omega
    have hbrk : ¬((out ++ List.replicate (cntAfter ((n + 1) / 5) - cntAfter (n / 5)) czero).length
        ≥ cap) := by
      rw [hlen1]
      omega
    rw [if_neg hbrk]
    rw [ih (n + 1) _ cap hlen1 hcap]
    have hD : (cntAfter ((n + 1) / 5) - cntAfter (n / 5))
        + (cntAfter (((n + 1) + k) / 5) - cntAfter ((n + 1) / 5))
        = cntAfter (((n + 1) + k) / 5) - cntAfter (n / 5) := by
      omega
    rw [List.append_assoc, ← List.replicate_add, hD]

lemma process_zero (N cap : Nat) (hcap : cntAfter (N / 5) < cap) :
    process reset_state (List.replicate N czero) cap
      = (zeroState N, List.replicate (cntAfter (N / 5)) czero) := by
  have h0 : reset_state = zeroState 0 := by
    simp [reset_state, zeroState, phaseAfter]
  rw [process, h0,
    process_loop_zeroState N 0 [] cap (by simp [cntAfter]) (by simpa using hcap)]
  simp [cntAfter]

instance (s : dsp_resampler) : Decidable (DoublyStored s) := by
  unfold DoublyStored
  infer_instance

instance (s : dsp_resampler) : Decidable (StateInv s) := by
  unfold StateInv
  infer_instance

/-- The resampler state reached from reset by a sequence of `process` calls,
each given by its input block and output capacity. -/
def run_ops (ops : List (List ComplexF × Nat)) : dsp_resampler :=
  ops.foldl (fun s op => (process s op.1 op.2).1) reset_state

lemma run_ops_inv (ops : List (List ComplexF × Nat)) : StateInv (run_ops ops) := by
  have hgen : ∀ (l : List (List ComplexF × Nat)) (s : dsp_resampler), StateInv s →
      StateInv (l.foldl (fun s op => (process s op.1 op.2).1) s) := by
    intro l
    induction l with
    | nil => intro s h; exact h
    | cons op rest ih =>
      intro s h
      exact ih _ (process_loop_inv op.1 s [] op.2 h)
  exact hgen ops reset_state (by decide)

/- Source adapter (iio_source.cc): worker-loop accounting and fill. -/

/-- `BATCH_SIZE` from iio_source.h line 100. -/
def BATCH_SIZE : Nat := 32768

/-- The scaling constant `1.0f / 2048.0f` of the worker thread (12-bit ADC). -/
def int16_scale : Rat := 1 / 2048

/-- The part of the `iio_source` state the worker-loop and `fill` accounting
claims are about: the resampler state, whether the circular buffer has been
allocated, the ring-buffer contents and item capacity, and the overflow
counter. -/
structure iio_source where
  rs : dsp_resampler
  cbPresent : Bool
  ring : List ComplexF
  ringCap : Nat
  overflow_count : Nat

/-- Modelled from the spec: `circular_buffer::write` in non-overwrite mode.
The implementation file circular_buffer.cc is not under src/ (only
circular_buffer.h is); spec section 4.2 states `write(src, n)` appends up to
`n` items, stopping at free space, and returns the count actually
written. -/
def cb_write (ring : List ComplexF) (cap : Nat) (xs : List ComplexF) :
    List ComplexF × Nat :=
  let w := min xs.length (cap - ring.length)
  (ring ++ xs.take w, w)

/-- The int16-to-complex-float conversion loop of `iio_source::worker_thread`
(iio_source.cc lines 223-229): at most `BATCH_SIZE` samples of the refilled
chunk are converted, each scaled by `1/2048`. -/
def convert_batch (chunk : List (Int × Int)) : List ComplexF :=
  (chunk.take BATCH_SIZE).map
    (fun s => ⟨(s.1 : Rat) * int16_scale, (s.2 : Rat) * int16_scale⟩)

/-- One iteration of the body of `iio_source::worker_thread`
(iio_source.cc lines 215-251) after a successful refill delivering `chunk`:
conversion, resampling, then the try-lock / write / overflow accounting.
`lock_ok` is the outcome of `try_lock` on the data mutex. -/
def worker_iteration (st : iio_source) (chunk : List (Int × Int)) (lock_ok : Bool) :
    iio_source :=
  let batch := convert_batch chunk
  let pr := process st.rs batch BATCH_SIZE
  let st1 := { st with rs := pr.1 }
  let produced := pr.2.length
  if 0 < produced then
    if lock_ok then
      if st.cbPresent then
        let wr := cb_write st.ring st.ringCap pr.2
        { st1 with
            ring := wr.1,
            overflow_count := st1.overflow_count
              + (if wr.2 < produced then produced - wr.2 else 0) }
      else st1
    else { st1 with overflow_count := st1.overflow_count + produced }
  else st1

/-- `iio_source::fill` (iio_source.cc lines 254-268), modelled on a static
snapshot of the concurrently updated values: `streaming` is the value of the
atomic flag observed after the initial `start()` attempt, `data_avail` the
number of items available in the ring buffer, `exit_req` the global
`g_kal_exit_req` flag.  The result is `none` when the wait loop would block
forever on an unchanging snapshot; otherwise it is `(return value, new
overflow_count, value stored through the overruns pointer, ring contents
after the call)`. -/
def fill (cbPresent exit_req streaming : Bool)
    (data_avail num_samples overflow : Nat) (ring : List ComplexF) :
    Option (Int × Nat × Option Nat × List ComplexF) :=
  if cbPresent = false then some (-1, overflow, none, ring)
  else if exit_req then some (-1, overflow, none, ring)
  else if data_avail ≥ num_samples ∨ streaming = false then
    (if streaming = false then some (-1, overflow, none, ring)
     else some (0, 0, some overflow, ring))
  else none

/- Claim theorems. -/

/-- C1 (amended): starting from reset, `process` on `N` zero samples with
`out_cap` strictly larger than the output count produces exactly
`⌈⌊N/5⌋·13/24⌉ = (13·(N/5) + 23)/24` output samples, all zero; that count is
within one of `⌊N·13/120⌋`, so the conversion ratio is 13/120 in the limit
(but not exactly `⌊(N·13 + 0)/120⌋` outputs for each N). -/
theorem claim_C1_zero_input_count (N cap : Nat)
    (hcap : (13 * (N / 5) + 23) / 24 < cap) :
    (process reset_state (List.replicate N czero) cap).2
        = List.replicate ((13 * (N / 5) + 23) / 24) czero
      ∧ 13 * N / 120 ≤ (13 * (N / 5) + 23) / 24
      ∧ (13 * (N / 5) + 23) / 24 ≤ 13 * N / 120 + 1 := by
  have hc := (cntAfter_closed (N / 5)).1
  refine ⟨?_, by omega, by omega⟩
  rw [← hc] at hcap ⊢
  rw [process_zero N cap hcap]

/-- C1 witness: N = 120 zero samples with out_cap = 14 give exactly 13
zero outputs. -/
theorem claim_C1_zero_input_count_witness :
    (13 * (120 / 5) + 23) / 24 < 14
      ∧ ((process reset_state (List.replicate 120 czero) 14).2
            = List.replicate ((13 * (120 / 5) + 23) / 24) czero
          ∧ 13 * 120 / 120 ≤ (13 * (120 / 5) + 23) / 24
          ∧ (13 * (120 / 5) + 23) / 24 ≤ 13 * 120 / 120 + 1) :=
  ⟨by decide, claim_C1_zero_input_count 120 14 (by decide)⟩

/-- C1 counterexample: from reset (phase residue r = 0), `N = 5` zero
samples with `out_cap = 2 ≥ ⌈5·13/120⌉ + 1` produce 1 output sample,
while the claimed count `⌊(5·13 + 0)/120⌋` is 0. -/
theorem claim_C1_counterexample :
    (process reset_state (List.replicate 5 czero) 2).2.length = 1
      ∧ (5 * 13 + 0) / 120 = 0 := by
  constructor
  · rw [process_zero 5 2 (by decide)]
    simp only [List.length_replicate]
    decide
  · decide

/-- C3: after construction, polyphase branch `p` at slot `56 - k` holds the
prototype coefficient `S2_COEFFS_RAW[p + 13·k]` when `p + 13·k < 729` and
`0.0` otherwise. -/
theorem claim_C3_polyphase_layout (p k : Nat) (_hp : p < S2_PHASES)
    (hk : k < S2_TAPS_PER_PHASE) :
    s2_coeffs_poly p (S2_TAPS_PER_PHASE - 1 - k)
      = if p + k * S2_PHASES < S2_TAPS_TOTAL then
          S2_COEFFS_RAW.getD (p + k * S2_PHASES) 0
        else 0 :=
  s2_coeffs_poly_spec p k hk

/-- C3 witness at `p = 12`, `k = 56` (an out-of-range slot, value 0) together
with `p = 0`, `k = 0` (an in-range slot). -/
theorem claim_C3_polyphase_layout_witness :
    (s2_coeffs_poly 0 (S2_TAPS_PER_PHASE - 1 - 0)
        = if 0 + 0 * S2_PHASES < S2_TAPS_TOTAL then
            S2_COEFFS_RAW.getD (0 + 0 * S2_PHASES) 0
          else 0)
      ∧ (s2_coeffs_poly 12 (S2_TAPS_PER_PHASE - 1 - 56)
        = if 12 + 56 * S2_PHASES < S2_TAPS_TOTAL then
            S2_COEFFS_RAW.getD (12 + 56 * S2_PHASES) 0
          else 0) :=
  ⟨claim_C3_polyphase_layout 0 0 (by decide) (by decide),
   claim_C3_polyphase_layout 12 56 (by decide) (by decide)⟩

/-- C4: `process` never returns more than `out_cap` samples: the output list
(the prefix of `out_buffer` actually written) always has length at most
`out_cap`, for every state, input block and capacity; `process` is total, so
all inputs are accepted. -/
theorem claim_C4_capacity_safety (s : dsp_resampler) (ins : List ComplexF)
    (out_cap : Nat) : (process s ins out_cap).2.length ≤ out_cap :=
  process_loop_len ins s [] out_cap (by simp)

/-- C5 (amended): after any sequence of `process` calls from reset,
`s2_phase_state` lies in `[0, 24)` between consumed input samples — not in
`[0, 13)`: values of 13 or more (up to 23) persist between steps. -/
theorem claim_C5_phase_window (ops : List (List ComplexF × Nat)) :
    0 ≤ (run_ops ops).s2_phase_state
      ∧ (run_ops ops).s2_phase_state < (S2_DECIM : Int) := by
  have h := run_ops_inv ops
  exact ⟨h.2.2.2.1, h.2.2.2.2.1⟩

/-- C5 counterexample: after 10 zero input samples from reset (two complete
Stage-2 steps), `s2_phase_state` is 22, which is not below 13. -/
theorem claim_C5_counterexample :
    (process reset_state (List.replicate 10 czero) 100).1.s2_phase_state = 22
      ∧ ¬((process reset_state (List.replicate 10 czero) 100).1.s2_phase_state
            < (S2_INTERP : Int)) := by
  rw [process_zero 10 100 (by decide)]
  decide

set_option maxRecDepth 8000 in
set_option maxHeartbeats 1600000 in
/-- C9: both stored coefficient tables are palindromes: `S1_COEFFS` (61
entries) equals its own reverse and `S2_COEFFS_RAW` (729 entries) equals its
own reverse, as exact equality of the stored constants. -/
theorem claim_C9_coefficient_symmetry :
    S1_COEFFS.reverse = S1_COEFFS ∧ S2_COEFFS_RAW.reverse = S2_COEFFS_RAW := by
  constructor
  · have h : S1_COEFFS_M.reverse = S1_COEFFS_M := by decide
    rw [S1_COEFFS, ← List.map_reverse, h]
  · have h : S2_COEFFS_RAW_M.reverse = S2_COEFFS_RAW_M := by decide
    rw [S2_COEFFS_RAW, ← List.map_reverse, h]

/-- C2: Stage 1 feeds a sample to Stage 2 exactly when the decimation
counter reaches `S1_DECIMATION` (and then resets to 0); the value fed is the
61-term dot product of the updated history window starting at the updated
head with `s1_coeffs_rev`, computed separately on real and imaginary parts
with the same real taps; on the other inputs nothing is passed to Stage 2
and no output is produced; and `s1_coeffs_rev[i] = S1_COEFFS[60 - i]` for
every `i < 61`. -/
theorem claim_C2_stage1_emission (s : dsp_resampler) (x : ComplexF)
    (out : List ComplexF) (cap : Nat) :
    (s.s1_index + 1 ≥ S1_DECIMATION →
      push_stage1 s x out cap
        = push_stage2
            { s with
                s1_history := updf (updf s.s1_history s.s1_head x) (s.s1_head + S1_TAPS) x,
                s1_head := if s.s1_head + 1 ≥ S1_TAPS then 0 else s.s1_head + 1,
                s1_index := 0 }
            ⟨∑ k ∈ Finset.range S1_TAPS,
                (updf (updf s.s1_history s.s1_head x) (s.s1_head + S1_TAPS) x
                  ((if s.s1_head + 1 ≥ S1_TAPS then 0 else s.s1_head + 1) + k)).re
                  * s1_coeffs_rev k,
             ∑ k ∈ Finset.range S1_TAPS,
                (updf (updf s.s1_history s.s1_head x) (s.s1_head + S1_TAPS) x
                  ((if s.s1_head + 1 ≥ S1_TAPS then 0 else s.s1_head + 1) + k)).im
                  * s1_coeffs_rev k⟩
            out cap)
    ∧ (s.s1_index + 1 < S1_DECIMATION →
      push_stage1 s x out cap
        = ({ s with
              s1_history := updf (updf s.s1_history s.s1_head x) (s.s1_head + S1_TAPS) x,
              s1_head := if s.s1_head + 1 ≥ S1_TAPS then 0 else s.s1_head + 1,
              s1_index := s.s1_index + 1 }, out))
    ∧ (∀ i, i < S1_TAPS → s1_coeffs_rev i = S1_COEFFS.getD (S1_TAPS - 1 - i) 0) := by
  refine ⟨?_, ?_, s1_coeffs_rev_spec⟩
  · intro h
    simp only [push_stage1, if_pos h, fir_dot_eq_sum]
  · intro h
    simp only [push_stage1, if_neg (by omega : ¬(s.s1_index + 1 ≥ S1_DECIMATION))]

/-- A concrete state whose decimation counter is about to reach 5. -/
def wit_state4 : dsp_resampler :=
  { s1_index := 4, s1_head := 0, s1_history := fun _ => czero,
    s2_head := 0, s2_phase_state := 0, s2_history := fun _ => czero }

/-- C2 witness: both branches instantiated (counter 4 emits, counter 0 does
not) and the tap-reversal equation at index 0. -/
theorem claim_C2_stage1_emission_witness :
    (push_stage1 wit_state4 czero [] 3
        = push_stage2
            { wit_state4 with
                s1_history := updf (updf wit_state4.s1_history wit_state4.s1_head czero)
                  (wit_state4.s1_head + S1_TAPS) czero,
                s1_head := if wit_state4.s1_head + 1 ≥ S1_TAPS then 0
                           else wit_state4.s1_head + 1,
                s1_index := 0 }
            ⟨∑ k ∈ Finset.range S1_TAPS,
                (updf (updf wit_state4.s1_history wit_state4.s1_head czero)
                  (wit_state4.s1_head + S1_TAPS) czero
                  ((if wit_state4.s1_head + 1 ≥ S1_TAPS then 0
                    else wit_state4.s1_head + 1) + k)).re
                  * s1_coeffs_rev k,
             ∑ k ∈ Finset.range S1_TAPS,
                (updf (updf wit_state4.s1_history wit_state4.s1_head czero)
                  (wit_state4.s1_head + S1_TAPS) czero
                  ((if wit_state4.s1_head + 1 ≥ S1_TAPS then 0
                    else wit_state4.s1_head + 1) + k)).im
                  * s1_coeffs_rev k⟩
            [] 3)
      ∧ (push_stage1 reset_state czero [] 3
        = ({ reset_state with
              s1_history := updf (updf reset_state.s1_history reset_state.s1_head czero)
                (reset_state.s1_head + S1_TAPS) czero,
              s1_head := if reset_state.s1_head + 1 ≥ S1_TAPS then 0
                         else reset_state.s1_head + 1,
              s1_index := reset_state.s1_index + 1 }, []))
      ∧ s1_coeffs_rev 0 = S1_COEFFS.getD (S1_TAPS - 1 - 0) 0 :=
  ⟨(claim_C2_stage1_emission wit_state4 czero [] 3).1 (by decide),
   (claim_C2_stage1_emission reset_state czero [] 3).2.1 (by decide),
   (claim_C2_stage1_emission reset_state czero [] 3).2.2 0 (by decide)⟩

/-- C6: the double-storage invariants hold after `reset()` and are preserved
by every consumed input sample (`push_stage1`) and by every `process` call:
for all `k < 61`, `s1_history[k] = s1_history[k+61]`, and for all `k < 57`,
`s2_history[k] = s2_history[k+57]`. -/
theorem claim_C6_double_storage :
    DoublyStored reset_state
      ∧ (∀ (s : dsp_resampler) (x : ComplexF) (out : List ComplexF) (cap : Nat),
          StateInv s → DoublyStored (push_stage1 s x out cap).1)
      ∧ (∀ (s : dsp_resampler) (ins : List ComplexF) (cap : Nat),
          StateInv s → DoublyStored (process s ins cap).1) := by
  refine ⟨by decide, ?_, ?_⟩
  · intro s x out cap h
    exact ⟨(push_stage1_inv s x out cap h).2.2.2.2.2.1,
           (push_stage1_inv s x out cap h).2.2.2.2.2.2⟩
  · intro s ins cap h
    exact ⟨(process_loop_inv ins s [] cap h).2.2.2.2.2.1,
           (process_loop_inv ins s [] cap h).2.2.2.2.2.2⟩

/-- C6 witness: the invariant discharged at reset and after one consumed
sample. -/
theorem claim_C6_double_storage_witness :
    StateInv reset_state
      ∧ DoublyStored (push_stage1 reset_state czero [] 4).1
      ∧ DoublyStored (process reset_state [czero] 4).1 :=
  ⟨by decide,
   claim_C6_double_storage.2.1 reset_state czero [] 4 (by decide),
   claim_C6_double_storage.2.2 reset_state [czero] 4 (by decide)⟩

/-- C7: in every worker-loop iteration with the circular buffer allocated:
on a successful try-lock the ring-buffer write appends `written =
min(produced, free space) ≤ produced` samples and `overflow_count` grows by
exactly `produced - written`; on a failed try-lock `overflow_count` grows by
exactly `produced` and the ring is untouched — every produced sample is
either written or counted. -/
theorem claim_C7_worker_accounting (st : iio_source) (chunk : List (Int × Int))
    (produced written : Nat) (hcb : st.cbPresent = true)
    (hprod : produced = (process st.rs (convert_batch chunk) BATCH_SIZE).2.length)
    (hwr : written = min produced (st.ringCap - st.ring.length)) :
    (written ≤ produced
      ∧ (worker_iteration st chunk true).ring.length = st.ring.length + written
      ∧ (worker_iteration st chunk true).overflow_count
          = st.overflow_count + (produced - written))
    ∧ ((worker_iteration st chunk false).overflow_count
          = st.overflow_count + produced
      ∧ (worker_iteration st chunk false).ring = st.ring) := by
  subst hprod
  subst hwr
  by_cases hpr : 0 < (process st.rs (convert_batch chunk) BATCH_SIZE).2.length
  · refine ⟨⟨Nat.min_le_left _ _, ?_, ?_⟩, ?_, ?_⟩
    · simp [worker_iteration, cb_write, hcb, hpr]
    · simp [worker_iteration, cb_write, hcb, hpr]
      intro h
      omega
    · simp [worker_iteration, hpr]
    · simp [worker_iteration, hpr]
  · have h0 : (process st.rs (convert_batch chunk) BATCH_SIZE).2.length = 0 := by omega
    refine ⟨⟨Nat.min_le_left _ _, ?_, ?_⟩, ?_, ?_⟩ <;>
      simp [worker_iteration, hpr, h0]

/-- A concrete source-adapter state with the circular buffer allocated. -/
def wit_src : iio_source :=
  { rs := reset_state, cbPresent := true, ring := [], ringCap := 4, overflow_count := 0 }

/-- C7 witness: the accounting law applied at an empty chunk. -/
theorem claim_C7_worker_accounting_witness :
    ((0 : Nat) ≤ 0
      ∧ (worker_iteration wit_src [] true).ring.length = wit_src.ring.length + 0
      ∧ (worker_iteration wit_src [] true).overflow_count
          = wit_src.overflow_count + (0 - 0))
    ∧ ((worker_iteration wit_src [] false).overflow_count
          = wit_src.overflow_count + 0
      ∧ (worker_iteration wit_src [] false).ring = wit_src.ring) :=
  claim_C7_worker_accounting wit_src [] 0 0 rfl rfl (by decide)

/-- C8 (amended): provided the circular buffer has been allocated, `fill`
returns -1 exactly when the exit-request flag is set or streaming is false,
and 0 otherwise; on the 0 return it stores the accumulated `overflow_count`
through the overruns pointer while resetting `overflow_count` to zero, and
removes no samples from the ring buffer. -/
theorem claim_C8_fill_semantics (exit_req streaming : Bool)
    (data_avail num_samples overflow : Nat) (ring : List ComplexF)
    (r : Int × Nat × Option Nat × List ComplexF)
    (hr : fill true exit_req streaming data_avail num_samples overflow ring = some r) :
    (r.1 = -1 ↔ (exit_req = true ∨ streaming = false))
      ∧ (r.1 = 0 ↔ (exit_req = false ∧ streaming = true))
      ∧ (r.1 = 0 → r.2.1 = 0 ∧ r.2.2.1 = some overflow ∧ r.2.2.2 = ring) := by
  cases exit_req with
  | true =>
    have h0 := Option.some.inj
      ((rfl : fill true true streaming data_avail num_samples overflow ring
          = some ((-1 : Int), overflow, none, ring)).symm.trans hr)
    subst h0
    exact ⟨by simp, by simp, fun h => absurd h (by simp)⟩
  | false =>
    cases streaming with
    | false =>
      unfold fill at hr
      rw [if_neg (by decide), if_neg (by decide), if_pos (Or.inr rfl), if_pos rfl] at hr
      have h0 := Option.some.inj hr
      subst h0
      exact ⟨by simp, by simp, fun h => absurd h (by simp)⟩
    | true =>
      unfold fill at hr
      rw [if_neg (by decide), if_neg (by decide)] at hr
      by_cases hd : data_avail ≥ num_samples
      · rw [if_pos (Or.inl hd), if_neg (by decide : ¬((true : Bool) = false))] at hr
        have h0 := Option.some.inj hr
        subst h0
        exact ⟨by simp, by simp, fun _ => ⟨rfl, rfl, rfl⟩⟩
      · rw [if_neg (fun h => h.elim hd (fun hc => Bool.noConfusion hc))] at hr
        exact Option.noConfusion hr

/-- C8 witness: exit flag clear, streaming, data available — `fill` returns
0, reports and clears the overflow counter, and leaves the ring alone. -/
theorem claim_C8_fill_semantics_witness :
    (((0 : Int), (0 : Nat), some 7, ([] : List ComplexF)).1 = -1
        ↔ (false = true ∨ true = false))
      ∧ (((0 : Int), (0 : Nat), some 7, ([] : List ComplexF)).1 = 0
        ↔ (false = false ∧ true = true))
      ∧ (((0 : Int), (0 : Nat), some 7, ([] : List ComplexF)).1 = 0 →
          ((0 : Int), (0 : Nat), some 7, ([] : List ComplexF)).2.1 = 0
          ∧ ((0 : Int), (0 : Nat), some 7, ([] : List ComplexF)).2.2.1 = some 7
          ∧ ((0 : Int), (0 : Nat), some 7, ([] : List ComplexF)).2.2.2 = []) :=
  claim_C8_fill_semantics false true 5 3 7 [] (0, 0, some 7, []) rfl

/-- C8 counterexample: with the circular buffer not allocated, `fill`
returns -1 even though the exit flag is clear and streaming is true,
contradicting "returns 0 otherwise". -/
theorem claim_C8_counterexample :
    fill false false true 5 3 7 [] = some (-1, 7, none, [])
      ∧ ((-1 : Int) ≠ 0) :=
  ⟨rfl, by decide⟩

/-- C10: in every worker-loop iteration at most `BATCH_SIZE = 32768` samples
of the refilled chunk are converted and fed to `process`; samples beyond the
first `BATCH_SIZE` have no effect at all on the iteration — they are neither
processed nor added to `overflow_count`. -/
theorem claim_C10_batch_clamp (st : iio_source) (chunk : List (Int × Int))
    (lock_ok : Bool) :
    (convert_batch chunk).length ≤ BATCH_SIZE
      ∧ worker_iteration st chunk lock_ok
          = worker_iteration st (chunk.take BATCH_SIZE) lock_ok := by
  constructor
  · simp [convert_batch]
  · have h : convert_batch (chunk.take BATCH_SIZE) = convert_batch chunk := by
      simp [convert_batch, List.take_take]
    simp only [worker_iteration, h]
